import Mathlib

/-!
Shallow embedding of the player-card composition engine
(src/services/cardGenerator.ts, the spreadsheet ingestion in
src/services/excelService, and the batch loop of src/App.tsx), together
with theorems settling the frozen claims about it.

Conventions of the embedding:
* Canvas text measurement (CanvasRenderingContext2D.measureText) is a
  browser primitive; for a fixed text string, font face and weight it
  yields a width that depends only on the font size.  We therefore model
  it as an abstract function meas : Int -> Rat from font size to measured
  width, and quantify over such functions where the claims quantify over
  text strings.
* Font sizes are JavaScript numbers that the code only ever decrements by
  the integer 2 from integer call-site constants (80, 60, 24); we model
  them as Int.
* Canvas drawing calls are recorded as explicit operation lists so that
  ordering and clip-scope claims become statements about lists.
* Asynchronous image loading has exactly one awaited outcome per call;
  we pass that outcome (success or failure) as an explicit argument.
-/

/-- Embedding of the shrink loop of drawTextWithFit
(src/services/cardGenerator.ts lines 81-92):

    let fontSize = initialFontSize;
    while (ctx.measureText(text).width > maxWidth && fontSize > 14) {
        fontSize -= 2;
    }
    return fontSize;

meas abstracts the measured width of the fixed text at a given font
size.  The definition is total (accepted by well-founded recursion on
the distance of fontSize to the loop bound 14), which is the
termination part of claim C9. -/
def fitFontSize (meas : Int → ℚ) (maxWidth : ℚ) (fontSize : Int) : Int :=
  if maxWidth < meas fontSize ∧ 14 < fontSize then
    fitFontSize meas maxWidth (fontSize - 2)
  else
    fontSize
termination_by (fontSize - 14).toNat
decreasing_by
  rename_i h
  omega

/-- Canvas width constant of cardGenerator.ts (CARD_WIDTH = 600). -/
def CARD_WIDTH : ℚ := 600

/-- Canvas height constant of cardGenerator.ts (CARD_HEIGHT = 850). -/
def CARD_HEIGHT : ℚ := 850

/-- Result of resolving an image source: either the procedurally built
placeholder, or the successfully loaded remote/data-URI image. -/
inductive LoadedImage where
  | placeholder
  | remote (src : String)
deriving DecidableEq, Repr

/-- The single awaited outcome of one asynchronous image-load attempt
(the img.onload / img.onerror callbacks of loadImage). -/
inductive LoadOutcome where
  | success
  | failure
deriving DecidableEq, Repr

/-- Embedding of loadImage (src/services/cardGenerator.ts lines 10-34).
The JavaScript promise executor only ever calls resolve — there is no
reject call and no throw path — so the embedding is a total function:
an empty source string (the only falsy string) resolves to the
placeholder immediately, and the error callback also resolves to the
placeholder. -/
def loadImage (src : String) (outcome : LoadOutcome) : LoadedImage :=
  if src = "" then
    LoadedImage.placeholder
  else
    match outcome with
    | LoadOutcome.success => LoadedImage.remote src
    | LoadOutcome.failure => LoadedImage.placeholder

/-- Canvas operations performed by createPlaceholder
(src/services/cardGenerator.ts lines 39-60). -/
inductive PlaceholderOp where
  | setFillStyle (color : String)
  | fillRect (x y w h : Int)
  | setFont (font : String)
  | setTextAlign (align : String)
  | setTextBaseline (baseline : String)
  | fillText (text : String) (x y : Int)
deriving DecidableEq, Repr

/-- Width of the placeholder canvas (canvas.width = 400). -/
def placeholderCanvasWidth : Int := 400

/-- Height of the placeholder canvas (canvas.height = 400). -/
def placeholderCanvasHeight : Int := 400

/-- Ordered canvas operations of createPlaceholder
(src/services/cardGenerator.ts lines 46-56).  The function builds the
image purely from these drawing calls on a locally created canvas; it
performs no network fetch. -/
def createPlaceholderOps : List PlaceholderOp :=
  [PlaceholderOp.setFillStyle "#2a0e45",
   PlaceholderOp.fillRect 0 0 400 400,
   PlaceholderOp.setFillStyle "#4a1d6e",
   PlaceholderOp.fillRect 20 20 360 360,
   PlaceholderOp.setFillStyle "#ffd700",
   PlaceholderOp.setFont "bold 40px sans-serif",
   PlaceholderOp.setTextAlign "center",
   PlaceholderOp.setTextBaseline "middle",
   PlaceholderOp.fillText "NO IMAGE" 200 200]

/-- Path commands of the 2D canvas path API, as used by drawShieldPath. -/
inductive PathCmd where
  | moveTo (x y : ℚ)
  | lineTo (x y : ℚ)
  | quadraticCurveTo (cx cy x y : ℚ)
  | closePath
deriving DecidableEq, Repr

/-- Embedding of drawShieldPath (src/services/cardGenerator.ts lines
98-107): the ordered path commands issued after beginPath. -/
def drawShieldPath (w h : ℚ) : List PathCmd :=
  [PathCmd.moveTo (w * 0.1) (h * 0.1),
   PathCmd.lineTo (w * 0.9) (h * 0.1),
   PathCmd.lineTo (w * 0.9) (h * 0.7),
   PathCmd.quadraticCurveTo (w * 0.9) (h * 0.85) (w * 0.5) (h * 0.95),
   PathCmd.quadraticCurveTo (w * 0.1) (h * 0.85) (w * 0.1) (h * 0.7),
   PathCmd.closePath]

/-- Canvas-context operations of generateCard that matter for ordering
and clipping claims.  State-setting calls (fillStyle, font, shadow,
alpha) are omitted; every drawing call and every save/restore/clip call
is recorded in source order. -/
inductive CanvasOp where
  | save
  | restore
  | clipShield
  | clipCircle
  | fillRect (tag : String)
  | drawImage (tag : String)
  | fillText (tag : String)
  | strokeLine (tag : String)
  | beginShieldPath
  | strokeShield (lineWidth : Int) (color : String)
deriving DecidableEq, Repr

/-- Operations performed by one drawTextWithFit call
(src/services/cardGenerator.ts lines 65-93): ctx.save(), one
ctx.fillText at the fitted size, ctx.restore(). -/
def drawTextWithFitOps (tag : String) : List CanvasOp :=
  [CanvasOp.save, CanvasOp.fillText tag, CanvasOp.restore]

/-- Operations performed by one drawStat call
(src/services/cardGenerator.ts lines 246-265): divider stroke, label
text, then the value through drawTextWithFit. -/
def drawStatOps (label : String) : List CanvasOp :=
  [CanvasOp.strokeLine (label ++ " divider"),
   CanvasOp.fillText (label ++ " label")]
    ++ drawTextWithFitOps (label ++ " value")

/-- Ordered trace of the canvas operations of generateCard
(src/services/cardGenerator.ts lines 109-289), from the opening
ctx.save() of the clipping scope to the final ctx.restore() after the
two border strokes. -/
def generateCardOps : List CanvasOp :=
  [CanvasOp.save,
   CanvasOp.beginShieldPath,
   CanvasOp.clipShield,
   CanvasOp.fillRect "background gradient",
   CanvasOp.save]
  ++ List.replicate 5 (CanvasOp.strokeLine "texture")
  ++ [CanvasOp.restore,
      CanvasOp.drawImage "player",
      CanvasOp.fillRect "fade gradient"]
  ++ drawTextWithFitOps "rating"
  ++ [CanvasOp.fillText "role abbreviation",
      CanvasOp.strokeLine "sidebar divider",
      CanvasOp.save,
      CanvasOp.clipCircle,
      CanvasOp.drawImage "agrasen",
      CanvasOp.restore,
      CanvasOp.strokeLine "icon border",
      CanvasOp.drawImage "logo",
      CanvasOp.save]
  ++ drawTextWithFitOps "name"
  ++ [CanvasOp.restore]
  ++ drawStatOps "ROLE"
  ++ drawStatOps "BATTING"
  ++ drawStatOps "BOWLING"
  ++ [CanvasOp.restore,
      CanvasOp.save,
      CanvasOp.beginShieldPath,
      CanvasOp.strokeShield 15 "#ffd700",
      CanvasOp.strokeShield 2 "#fff8dc",
      CanvasOp.restore]

/-- Whether a canvas operation draws pixels (as opposed to managing
state or paths). -/
def isDrawOp : CanvasOp → Bool
  | CanvasOp.fillRect _ => true
  | CanvasOp.drawImage _ => true
  | CanvasOp.fillText _ => true
  | CanvasOp.strokeLine _ => true
  | CanvasOp.strokeShield _ _ => true
  | _ => false

/-- One step of the canvas save/restore stack, tracking only whether the
shield clip is active: save pushes the current flag, restore pops it,
ctx.clip() on the shield path sets it. -/
def stepClip : Bool × List Bool → CanvasOp → Bool × List Bool
  | (cur, stk), CanvasOp.save => (cur, cur :: stk)
  | (cur, stk), CanvasOp.restore =>
    match stk with
    | [] => (cur, [])
    | s :: rest => (s, rest)
  | (_, stk), CanvasOp.clipShield => (true, stk)
  | st, _ => st

/-- Whether the shield clip region is active after executing the given
operations from a fresh context. -/
def shieldClipAfter (ops : List CanvasOp) : Bool :=
  (ops.foldl stepClip (false, [])).1

/-- Player record as produced by the ingestion step
(src/services/excelService parseExcelFile, src/types.ts). -/
structure PlayerData where
  id : String
  name : String
  role : String
  battingStyle : String
  bowlingStyle : String
  formNumber : Int
  imageUrl : String
deriving DecidableEq, Repr

/-- One output card of the batch loop, keyed by player identifier
(src/App.tsx: cards.push with playerId as player.id). -/
structure GeneratedCard where
  playerId : String
  dataUrl : String
deriving DecidableEq, Repr

/-- Embedding of the batch loops of src/App.tsx (handleProcess lines
40-47 and handleForgeCards lines 340-353): iterate the player list in
order, render each player, push one card keyed by the player id.  The
rendering of one player is abstracted as gen, since each card depends
only on its own player record. -/
def forgeCards (gen : PlayerData → String) : List PlayerData → List GeneratedCard
  | [] => []
  | p :: rest => { playerId := p.id, dataUrl := gen p } :: forgeCards gen rest

/-- Whitespace skipped by the JavaScript parseInt builtin at the start
of its input: the full ECMAScript WhiteSpace and LineTerminator set —
tab, LF, VT, FF, CR (codes 9 to 13), space, NBSP, Ogham space mark,
the en-quad through hair-space range, line and paragraph separators,
narrow no-break space, medium mathematical space, ideographic space,
and the byte-order mark. -/
def jsIsSpace (c : Char) : Bool :=
  c.toNat = 0x20 ∨ (0x9 ≤ c.toNat ∧ c.toNat ≤ 0xD)
  ∨ c.toNat = 0xA0 ∨ c.toNat = 0x1680
  ∨ (0x2000 ≤ c.toNat ∧ c.toNat ≤ 0x200A)
  ∨ c.toNat = 0x2028 ∨ c.toNat = 0x2029 ∨ c.toNat = 0x202F
  ∨ c.toNat = 0x205F ∨ c.toNat = 0x3000 ∨ c.toNat = 0xFEFF

/-- Longest leading run of decimal digits. -/
def takeDigits : List Char → List Char
  | [] => []
  | c :: cs => if c.isDigit then c :: takeDigits cs else []

/-- Numeric value of a decimal digit list (most significant first). -/
def digitsToNat (ds : List Char) : Nat :=
  ds.foldl (fun a c => 10 * a + (c.toNat - 48)) 0

/-- Hexadecimal digits accepted by parseInt with radix 16. -/
def isJsHexDigit (c : Char) : Bool :=
  c.isDigit ∨ ('a' ≤ c ∧ c ≤ 'f') ∨ ('A' ≤ c ∧ c ≤ 'F')

/-- Longest leading run of hexadecimal digits. -/
def takeHexDigits : List Char → List Char
  | [] => []
  | c :: cs => if isJsHexDigit c then c :: takeHexDigits cs else []

/-- Numeric value of one hexadecimal digit. -/
def hexDigitVal (c : Char) : Nat :=
  if c.isDigit then c.toNat - 48
  else if 'a' ≤ c ∧ c ≤ 'f' then c.toNat - 87
  else c.toNat - 55

/-- Numeric value of a hexadecimal digit list (most significant first). -/
def hexDigitsToNat (ds : List Char) : Nat :=
  ds.foldl (fun a c => 16 * a + hexDigitVal c) 0

/-- Magnitude part of the JavaScript parseInt builtin with no radix
argument, applied after whitespace and sign: a leading 0x or 0X prefix
switches to radix 16 (with NaN when no hexadecimal digit follows the
prefix); otherwise the leading decimal digits are read (with NaN when
there is none). -/
def jsParseIntBody (cs : List Char) : Option Int :=
  match cs with
  | '0' :: c :: rest =>
    if c = 'x' ∨ c = 'X' then
      let ds := takeHexDigits rest
      if ds = [] then none else some ((hexDigitsToNat ds : Int))
    else
      let ds := takeDigits ('0' :: c :: rest)
      if ds = [] then none else some ((digitsToNat ds : Int))
  | _ =>
    let ds := takeDigits cs
    if ds = [] then none else some ((digitsToNat ds : Int))

/-- Embedding of the JavaScript parseInt builtin as called by
parseExcelFile (no radix argument): skip leading ECMAScript whitespace,
accept an optional sign, then read a hexadecimal number after a 0x/0X
prefix or a decimal number otherwise; none models the NaN result. -/
def jsParseInt (s : String) : Option Int :=
  let cs := s.data.dropWhile jsIsSpace
  match cs with
  | '-' :: rest => (jsParseIntBody rest).map (fun n => -n)
  | '+' :: rest => jsParseIntBody rest
  | _ => jsParseIntBody cs

/-- JavaScript logical-or fallback on a number: NaN (none) and 0 are
falsy, every other integer is kept. -/
def jsOrDefault (v : Option Int) (d : Int) : Int :=
  match v with
  | none => d
  | some n => if n = 0 then d else n

/-- Embedding of the formNumber field computation of parseExcelFile
(src/services/excelService: parseInt(row value) || 50).  The cell is
none when the form-number column is absent from the row (parseInt of
undefined is NaN). -/
def parseFormNumberCell (cell : Option String) : Int :=
  jsOrDefault (cell.bind jsParseInt) 50

/-- Embedding of String.prototype.padStart with a single pad character. -/
def jsPadStart (s : String) (n : Nat) (c : Char) : String :=
  if s.length < n then String.mk (List.replicate (n - s.length) c) ++ s
  else s

/-- Rating string drawn on the card (src/services/cardGenerator.ts line
184): formNumber.toString().padStart(2, the zero digit). -/
def renderRating (n : Int) : String :=
  jsPadStart (toString n) 2 '0'

/-- Measurement function of a text so wide that it overflows every
budget at every font size (models a very long string). -/
def measAlwaysWide : Int → ℚ := fun _ => 1000

/-- Measurement function that overflows a 50-unit budget at sizes 80 and
above and fits below 80; it is monotone in the font size. -/
def measFitsBelowEighty : Int → ℚ := fun s => if 80 ≤ s then 100 else 0

/-- Formalisation of the spec sentence behind claim C1 (spec.md section
8, adaptive-fit property), stated about the code's fitFontSize: the
chosen size is the largest size between the floor and the initial size
whose measured width fits the budget, or the floor when no size fits.
The spec leaves the numeric floor abstract, so it is a parameter. -/
def specAdaptiveFitClaim (meas : Int → ℚ) (mw : ℚ) (floor init : Int) : Prop :=
  ((∃ s : Int, floor ≤ s ∧ s ≤ init ∧ meas s ≤ mw)
     ∧ meas (fitFontSize meas mw init) ≤ mw
     ∧ (∀ s : Int, floor ≤ s → s ≤ init → meas s ≤ mw →
          s ≤ fitFontSize meas mw init))
  ∨ ((¬ ∃ s : Int, floor ≤ s ∧ s ≤ init ∧ meas s ≤ mw)
     ∧ fitFontSize meas mw init = floor)

/-- Unfolding equation for the shrink loop of drawTextWithFit. -/
theorem fitFontSize_unfold (meas : Int → ℚ) (maxWidth : ℚ) (fontSize : Int) :
    fitFontSize meas maxWidth fontSize =
      if maxWidth < meas fontSize ∧ 14 < fontSize then
        fitFontSize meas maxWidth (fontSize - 2)
      else fontSize := by
  rw [fitFontSize]

/-- Exact characterisation of the shrink loop of drawTextWithFit: the
result lies on the descending step-2 chain from the initial size, the
loop only stops when the text fits or the size is at most 14, every
chain element strictly above the result failed both guard conjuncts,
and the result never drops below min initialFontSize 13. -/
theorem fitFontSize_spec (meas : Int → ℚ) (mw : ℚ) (f : Int) :
    (∃ k : ℕ, fitFontSize meas mw f = f - 2 * k)
    ∧ (mw < meas (fitFontSize meas mw f) → fitFontSize meas mw f ≤ 14)
    ∧ (∀ k : ℕ, fitFontSize meas mw f < f - 2 * k →
        (mw < meas (f - 2 * k) ∧ 14 < f - 2 * k))
    ∧ min f 13 ≤ fitFontSize meas mw f := by
  generalize hn : (f - 14).toNat = n
  induction n using Nat.strong_induction_on generalizing f with
  | _ n ih =>
    rw [fitFontSize_unfold]
    by_cases hg : mw < meas f ∧ 14 < f
    · rw [if_pos hg]
      obtain ⟨hmeas, hf⟩ := hg
      have hrec := ih ((f - 2) - 14).toNat (by omega) (f - 2) rfl
      obtain ⟨⟨k0, hk0⟩, hexit, hpass, hlb⟩ := hrec
      refine ⟨⟨k0 + 1, by rw [hk0]; push_cast; ring⟩, hexit, ?_, by omega⟩
      intro k hk
      cases k with
      | zero => simpa using ⟨hmeas, hf⟩
      | succ j =>
        have hj := hpass j (by push_cast at hk ⊢; omega)
        constructor
        · have : f - 2 * (↑j + 1 : ℕ) = (f - 2) - 2 * (j : ℕ) := by
            push_cast; ring
          rw [this]; exact hj.1
        · push_cast at hj ⊢; omega
    · rw [if_neg hg]
      refine ⟨⟨0, by omega⟩, ?_, ?_, by omega⟩
      · intro hm
        by_contra hf14
        exact hg ⟨hm, by omega⟩
      · intro k hk
        exfalso; omega

/-- At the size chosen by the shrink loop, the text either fits the
budget or the size is at the loop floor (at most 14). -/
theorem fitFontSize_fit_or_floor (meas : Int → ℚ) (mw : ℚ) (f : Int) :
    meas (fitFontSize meas mw f) ≤ mw ∨ fitFontSize meas mw f ≤ 14 := by
  obtain ⟨_, hexit, _, _⟩ := fitFontSize_spec meas mw f
  rcases le_or_lt (meas (fitFontSize meas mw f)) mw with h | h
  · exact Or.inl h
  · exact Or.inr (hexit h)

/-- Concrete run of the shrink loop used by the claim C1 counterexample:
with a budget of 50, a width of 100 at sizes 80 and above and 0 below,
starting at 80 the loop stops at 78 (it steps by 2 and never tests 79). -/
theorem fitFontSize_eighty_value :
    fitFontSize measFitsBelowEighty 50 80 = 78 := by
  obtain ⟨⟨k, hk⟩, hexit, hpass, hlb⟩ :=
    fitFontSize_spec measFitsBelowEighty 50 80
  have hne80 : fitFontSize measFitsBelowEighty 50 80 ≠ 80 := by
    intro h
    have h1 : (50 : ℚ) < measFitsBelowEighty (fitFontSize measFitsBelowEighty 50 80) := by
      rw [h]; norm_num [measFitsBelowEighty]
    have h2 := hexit h1
    omega
  have hge : ¬ (fitFontSize measFitsBelowEighty 50 80 < 78) := by
    intro hlt
    have h1 := (hpass 1 (by push_cast; omega)).1
    norm_num [measFitsBelowEighty] at h1
  omega

/-- Claim C1 (counterexample): the adaptive-fit routine does not choose
the largest size at or above the floor whose measured width fits the
budget.  With a budget of 50, an initial size of 80, and a monotone
measurement that fits below size 80 and overflows from 80 up, the loop
settles at 78 even though 79 fits — the step of 2 skips it.  The spec
statement fails whether its unnamed floor is read as 14 or as 13. -/
theorem C1_counterexample :
    ¬ specAdaptiveFitClaim measFitsBelowEighty 50 14 80
    ∧ ¬ specAdaptiveFitClaim measFitsBelowEighty 50 13 80 := by
  have hr := fitFontSize_eighty_value
  constructor
  · intro hclaim
    rcases hclaim with ⟨_, _, hlargest⟩ | ⟨hnone, _⟩
    · have h79 := hlargest 79 (by norm_num) (by norm_num)
        (by norm_num [measFitsBelowEighty])
      omega
    · exact hnone ⟨79, by norm_num, by norm_num,
        by norm_num [measFitsBelowEighty]⟩
  · intro hclaim
    rcases hclaim with ⟨_, _, hlargest⟩ | ⟨hnone, _⟩
    · have h79 := hlargest 79 (by norm_num) (by norm_num)
        (by norm_num [measFitsBelowEighty])
      omega
    · exact hnone ⟨79, by norm_num, by norm_num,
        by norm_num [measFitsBelowEighty]⟩

/-- Claim C1 (amended): for every measurement function, budget and
initial size, the size chosen by the adaptive text-fit routine lies on
the descending step-2 chain from the initial size; it is at least every
chain element above 14 whose measured width fits the budget (so it is
the largest fitting size among the sizes the loop can actually test);
and if the measured width at the chosen size still exceeds the budget
then the chosen size is at the floor (at most 14).  Sizes off the
chain, such as odd sizes below an even start, are never tested, which
is exactly where the original claim fails. -/
theorem C1_amended_chain_optimal (meas : Int → ℚ) (mw : ℚ) (init : Int) :
    (∃ k : ℕ, fitFontSize meas mw init = init - 2 * k)
    ∧ (∀ k : ℕ, 14 < init - 2 * k → meas (init - 2 * k) ≤ mw →
        init - 2 * k ≤ fitFontSize meas mw init)
    ∧ (mw < meas (fitFontSize meas mw init) → fitFontSize meas mw init ≤ 14) := by
  obtain ⟨hchain, hexit, hpass, _⟩ := fitFontSize_spec meas mw init
  refine ⟨hchain, ?_, hexit⟩
  intro k h14 hfit
  by_contra hlt
  push_neg at hlt
  exact absurd hfit (not_le.mpr (hpass k hlt).1)

/-- Witness for claim C1 (amended) at a concrete input: with the
measurement measFitsBelowEighty, budget 50 and initial size 80, the
chain element 80 - 2 = 78 exceeds 14 and fits, so the chosen size is at
least 78. -/
theorem C1_amended_witness :
    (14 : Int) < 80 - 2 * (1 : ℕ)
    ∧ measFitsBelowEighty (80 - 2 * (1 : ℕ)) ≤ 50
    ∧ (80 : Int) - 2 * (1 : ℕ) ≤ fitFontSize measFitsBelowEighty 50 80 :=
  ⟨by norm_num, by norm_num [measFitsBelowEighty],
   (C1_amended_chain_optimal measFitsBelowEighty 50 80).2.1 1
     (by norm_num) (by norm_num [measFitsBelowEighty])⟩

/-- Claim C2 (counterexample): drawn text can overflow its column.  For
the player-name call site (budget CARD_WIDTH - 120 = 480, initial size
60), a text measuring 1000 units at every size (a very long name) makes
the loop bottom out at the floor size 14, where the measured width 1000
still exceeds the 480-unit budget. -/
theorem C2_counterexample :
    fitFontSize measAlwaysWide (CARD_WIDTH - 120) 60 = 14
    ∧ ¬ (measAlwaysWide (fitFontSize measAlwaysWide (CARD_WIDTH - 120) 60)
          ≤ CARD_WIDTH - 120) := by
  obtain ⟨⟨k, hk⟩, hexit, hpass, hlb⟩ :=
    fitFontSize_spec measAlwaysWide (CARD_WIDTH - 120) 60
  have hwide : (CARD_WIDTH - 120 : ℚ) <
      measAlwaysWide (fitFontSize measAlwaysWide (CARD_WIDTH - 120) 60) := by
    norm_num [measAlwaysWide, CARD_WIDTH]
  have h14 := hexit hwide
  have hval : fitFontSize measAlwaysWide (CARD_WIDTH - 120) 60 = 14 := by omega
  exact ⟨hval, by rw [hval]; norm_num [measAlwaysWide, CARD_WIDTH]⟩

/-- Claim C2 (amended): at each of the three adaptive-fit call sites of
generateCard — the player name with budget CARD_WIDTH - 120 and initial
size 60, the stat-row values with budget CARD_WIDTH - 160 and initial
size 24, and the rating with budget 100 and initial size 80 — the
measured width at the final chosen font size is at most the budget
unless the loop has hit its floor (final size at most 14); only a text
so long that it overflows even at the floor can overflow its column. -/
theorem C2_amended_fit_or_floor (meas : Int → ℚ) :
    (meas (fitFontSize meas (CARD_WIDTH - 120) 60) ≤ CARD_WIDTH - 120
      ∨ fitFontSize meas (CARD_WIDTH - 120) 60 ≤ 14)
    ∧ (meas (fitFontSize meas (CARD_WIDTH - 160) 24) ≤ CARD_WIDTH - 160
      ∨ fitFontSize meas (CARD_WIDTH - 160) 24 ≤ 14)
    ∧ (meas (fitFontSize meas 100 80) ≤ 100
      ∨ fitFontSize meas 100 80 ≤ 14) :=
  ⟨fitFontSize_fit_or_floor meas (CARD_WIDTH - 120) 60,
   fitFontSize_fit_or_floor meas (CARD_WIDTH - 160) 24,
   fitFontSize_fit_or_floor meas 100 80⟩

/-- Claim C9: the shrink loop of drawTextWithFit terminates (fitFontSize
is a total function, accepted by well-founded recursion on the distance
to the bound 14, each iteration decreasing the size by exactly 2 under
the guard that the size exceeds 14), and the final font size is always
at least min initialFontSize 13; in particular an odd initial size of
15 with an overflowing text settles at 13, one below the loop threshold
of 14. -/
theorem C9_fit_terminates_floor :
    (∀ (meas : Int → ℚ) (mw : ℚ) (init : Int),
      min init 13 ≤ fitFontSize meas mw init)
    ∧ fitFontSize measAlwaysWide (CARD_WIDTH - 120) 15 = 13 := by
  constructor
  · intro meas mw init
    exact (fitFontSize_spec meas mw init).2.2.2
  · obtain ⟨⟨k, hk⟩, hexit, hpass, hlb⟩ :=
      fitFontSize_spec measAlwaysWide (CARD_WIDTH - 120) 15
    have hwide : (CARD_WIDTH - 120 : ℚ) <
        measAlwaysWide (fitFontSize measAlwaysWide (CARD_WIDTH - 120) 15) := by
      norm_num [measAlwaysWide, CARD_WIDTH]
    have h14 := hexit hwide
    omega

/-- Claim C3: the image-resolution operation never throws and never
rejects — loadImage is a total function into images (the promise
executor of loadImage has no reject path); an empty source reference
yields the placeholder regardless of any load outcome (the load is
never attempted, so the result cannot depend on it); and a load failure
for any source resolves to the placeholder instead of an error. -/
theorem C3_loadImage_total_placeholder :
    ∀ (src : String) (o o₁ o₂ : LoadOutcome),
      loadImage "" o = LoadedImage.placeholder
      ∧ loadImage "" o₁ = loadImage "" o₂
      ∧ loadImage src LoadOutcome.failure = LoadedImage.placeholder := by
  intro src o o₁ o₂
  refine ⟨rfl, rfl, ?_⟩
  by_cases h : src = ""
  · simp [loadImage, h]
  · simp [loadImage, h]

/-- Claim C4: the batch loop produces exactly one rendered card per
input player record, in input order, and the card at each position is
keyed by the id of the player record at that position — the output list
is the pointwise image of the input list. -/
theorem C4_batch_order_keys :
    ∀ (gen : PlayerData → String) (players : List PlayerData),
      (forgeCards gen players).length = players.length
      ∧ (forgeCards gen players).map GeneratedCard.playerId
          = players.map PlayerData.id
      ∧ forgeCards gen players
          = players.map (fun p => { playerId := p.id, dataUrl := gen p }) := by
  intro gen players
  induction players with
  | nil => exact ⟨rfl, rfl, rfl⟩
  | cons p rest ih =>
    obtain ⟨h1, h2, h3⟩ := ih
    refine ⟨?_, ?_, ?_⟩
    · simp [forgeCards, h1]
    · simp [forgeCards, h2]
    · simp [forgeCards, h3]

/-- Concrete behaviour of the parseInt embedding on the delicate inputs
of its JavaScript counterpart: a hex-prefixed cell parses in radix 16,
a bare 0x prefix is NaN, a vertical-tab-prefixed digit string parses
after whitespace trimming, signed and zero inputs parse exactly, and a
non-numeric cell is NaN. -/
theorem jsParseInt_probe_values :
    jsParseInt "0x20" = some 32
    ∧ jsParseInt "0X20" = some 32
    ∧ jsParseInt "-0x20" = some (-32)
    ∧ jsParseInt "0x" = none
    ∧ jsParseInt "\x0b42" = some 42
    ∧ jsParseInt "  77" = some 77
    ∧ jsParseInt "0" = some 0
    ∧ jsParseInt "-0" = some 0
    ∧ jsParseInt "0x0" = some 0
    ∧ jsParseInt "09" = some 9
    ∧ jsParseInt "12abc" = some 12
    ∧ jsParseInt "N/A" = none
    ∧ jsParseInt "" = none := by
  decide

/-- Claim C5: a roster row whose form-number cell is absent (none) or
does not parse as an integer (jsParseInt yields NaN) gets formNumber
50, and the rating rendered on the card for it is the string "50". -/
theorem C5_unparsable_defaults_fifty :
    ∀ cell : Option String, cell.bind jsParseInt = none →
      parseFormNumberCell cell = 50
      ∧ renderRating (parseFormNumberCell cell) = "50" := by
  intro cell h
  have h50 : parseFormNumberCell cell = 50 := by
    unfold parseFormNumberCell
    rw [h]
    rfl
  exact ⟨h50, by rw [h50]; rfl⟩

/-- Witness for claim C5 at concrete inputs: the cell text "N/A" does
not parse as an integer, so the record gets formNumber 50 and renders
the rating "50"; the bare hex prefix "0x" (NaN in JavaScript) and an
absent cell behave the same. -/
theorem C5_witness :
    (Option.some "N/A").bind jsParseInt = none
    ∧ parseFormNumberCell (Option.some "N/A") = 50
    ∧ renderRating (parseFormNumberCell (Option.some "N/A")) = "50"
    ∧ (Option.some "0x").bind jsParseInt = none
    ∧ parseFormNumberCell (Option.some "0x") = 50
    ∧ parseFormNumberCell Option.none = 50 :=
  ⟨by decide,
   (C5_unparsable_defaults_fifty (Option.some "N/A") (by decide)).1,
   (C5_unparsable_defaults_fifty (Option.some "N/A") (by decide)).2,
   by decide,
   (C5_unparsable_defaults_fifty (Option.some "0x") (by decide)).1,
   (C5_unparsable_defaults_fifty Option.none rfl).1⟩

/-- Claim C10: a form-number cell that parses to the integer 0 is
replaced by the default 50, because the fallback is the JavaScript
falsy check parseInt(...) || 50 rather than a missing-value check; the
rendered rating is therefore "50", never the "00" that a preserved 0
would have produced through padStart. -/
theorem C10_zero_rating_replaced :
    ∀ cell : Option String, cell.bind jsParseInt = some 0 →
      parseFormNumberCell cell = 50
      ∧ renderRating (parseFormNumberCell cell) = "50"
      ∧ renderRating 0 = "00" := by
  intro cell h
  have h50 : parseFormNumberCell cell = 50 := by
    unfold parseFormNumberCell
    rw [h]
    rfl
  exact ⟨h50, by rw [h50]; rfl, rfl⟩

/-- Witness for claim C10 at concrete inputs: the cell texts "0" and
"0x0" both parse to 0 and the resulting formNumber is 50, rendered
"50". -/
theorem C10_witness :
    (Option.some "0").bind jsParseInt = some 0
    ∧ parseFormNumberCell (Option.some "0") = 50
    ∧ renderRating (parseFormNumberCell (Option.some "0")) = "50"
    ∧ (Option.some "0x0").bind jsParseInt = some 0
    ∧ parseFormNumberCell (Option.some "0x0") = 50 :=
  ⟨by decide,
   (C10_zero_rating_replaced (Option.some "0") (by decide)).1,
   (C10_zero_rating_replaced (Option.some "0") (by decide)).2.1,
   by decide,
   (C10_zero_rating_replaced (Option.some "0x0") (by decide)).1⟩

/-- Claim C6: on the fixed 600 by 850 canvas the shield silhouette is
built from straight edges — the top edge at 10 percent of the height
(y = 85), the right shoulder at 90 percent of the width (x = 540)
descending to 70 percent of the height (y = 595) — followed by two
quadratic curves meeting at the apex at 50 percent of the width
(x = 300) and 95 percent of the height (y = 807.5), and the path is
closed (the closePath command returns along the left edge at 10 percent
of the width). -/
theorem C6_shield_path_geometry :
    drawShieldPath 600 850 =
      [PathCmd.moveTo 60 85,
       PathCmd.lineTo 540 85,
       PathCmd.lineTo 540 595,
       PathCmd.quadraticCurveTo 540 722.5 300 807.5,
       PathCmd.quadraticCurveTo 60 722.5 60 595,
       PathCmd.closePath]
    ∧ (85 : ℚ) = 0.1 * 850
    ∧ (540 : ℚ) = 0.9 * 600
    ∧ (595 : ℚ) = 0.7 * 850
    ∧ (300 : ℚ) = 0.5 * 600
    ∧ (807.5 : ℚ) = 0.95 * 850
    ∧ (60 : ℚ) = 0.1 * 600 := by
  refine ⟨?_, by norm_num, by norm_num, by norm_num, by norm_num,
    by norm_num, by norm_num⟩
  unfold drawShieldPath
  norm_num

/-- Claim C7: in the composition trace of generateCard, the two
shield-border strokes — the thick gold stroke of width 15 then the thin
pale stroke of width 2 — are the final drawing operations: the last six
context operations are exactly the clip-releasing restore, a save, the
shield path, the two strokes, and the closing restore; the two strokes
are the last two pixel-drawing operations of the whole trace; and the
shield clip region is active up to that restore and released before the
strokes run. -/
theorem C7_border_strokes_final :
    generateCardOps.drop (generateCardOps.length - 6) =
      [CanvasOp.restore,
       CanvasOp.save,
       CanvasOp.beginShieldPath,
       CanvasOp.strokeShield 15 "#ffd700",
       CanvasOp.strokeShield 2 "#fff8dc",
       CanvasOp.restore]
    ∧ (generateCardOps.filter isDrawOp).reverse.take 2 =
      [CanvasOp.strokeShield 2 "#fff8dc", CanvasOp.strokeShield 15 "#ffd700"]
    ∧ shieldClipAfter (generateCardOps.take (generateCardOps.length - 6)) = true
    ∧ shieldClipAfter (generateCardOps.take (generateCardOps.length - 5)) = false
    ∧ shieldClipAfter (generateCardOps.take (generateCardOps.length - 1)) = false := by
  exact ⟨rfl, rfl, rfl, rfl, rfl⟩

/-- Claim C8: the placeholder image is built procedurally on a local
400 by 400 canvas (no fetch appears among its operations): an outer
dark-purple rectangle covering the whole square, an inner
lighter-purple rectangle nested strictly inside it, and bold
"NO IMAGE" text centered at half the canvas width and height with
center alignment and middle baseline. -/
theorem C8_placeholder_procedural :
    placeholderCanvasWidth = 400
    ∧ placeholderCanvasHeight = 400
    ∧ createPlaceholderOps[0]? = some (PlaceholderOp.setFillStyle "#2a0e45")
    ∧ createPlaceholderOps[1]?
        = some (PlaceholderOp.fillRect 0 0
            placeholderCanvasWidth placeholderCanvasHeight)
    ∧ createPlaceholderOps[2]? = some (PlaceholderOp.setFillStyle "#4a1d6e")
    ∧ createPlaceholderOps[3]? = some (PlaceholderOp.fillRect 20 20 360 360)
    ∧ ((0 : Int) < 20 ∧ 20 + 360 < 400)
    ∧ PlaceholderOp.fillText "NO IMAGE" 200 200 ∈ createPlaceholderOps
    ∧ 2 * (200 : Int) = placeholderCanvasWidth
    ∧ 2 * (200 : Int) = placeholderCanvasHeight
    ∧ PlaceholderOp.setTextAlign "center" ∈ createPlaceholderOps
    ∧ PlaceholderOp.setTextBaseline "middle" ∈ createPlaceholderOps
    ∧ PlaceholderOp.setFont "bold 40px sans-serif" ∈ createPlaceholderOps := by
  decide
